import Mathlib

/-!
Verification development for the iam-approver-bot repository.

The definitions below are a shallow embedding of the two JavaScript source
files (`src/unnamed/part_000` and `src/server.js`): pure computations become
Lean functions, the Express handlers become functions from an explicit
"world" (the behaviour of every external collaborator) and a request value to
the list of observable events (external calls, log lines, the HTTP response)
the handler produces, in the order the JavaScript code produces them.
-/

namespace IamApprover

/-! ## Action Token Codec

The buttons built in `src/unnamed/part_000` lines 157-158 carry
`JSON.stringify({ issueKey, transitionId })` as their value; the click
handler (line 191) recovers the context with `JSON.parse(action.value)`.
`encode` below reproduces `JSON.stringify` on this two-field object
(including its string-escaping rules); `decode` models
`JSON.parse` + destructuring, restricted to the canonical object grammar
that `encode` emits (the handler never receives other token shapes from
this repository's own buttons). -/

/-- Decision context embedded in an Approve/Reject button:
`issueKey` and a numeric `transitionId` (61 approve, 51 reject). -/
structure ActionContext where
  issueKey : String
  transitionId : Nat
deriving DecidableEq, Repr

/-- Character for a decimal digit value (`0 ≤ n < 10` intended). -/
def digitChar (n : Nat) : Char := Char.ofNat (48 + n)

/-- Lowercase hexadecimal digit character, as `JSON.stringify` emits in
its `\u00XX` escapes (`0 ≤ n < 16` intended). -/
def hexDigitChar (n : Nat) : Char := if n < 10 then Char.ofNat (48 + n) else Char.ofNat (87 + n)

/-- Is the character an ASCII hexadecimal digit? -/
def isHexChar (c : Char) : Bool :=
  (48 ≤ c.toNat && c.toNat ≤ 57) || (97 ≤ c.toNat && c.toNat ≤ 102) ||
    (65 ≤ c.toNat && c.toNat ≤ 70)

/-- Numeric value of a hexadecimal digit character. -/
def hexVal (c : Char) : Nat :=
  if c.toNat ≤ 57 then c.toNat - 48 else if c.toNat ≤ 70 then c.toNat - 55 else c.toNat - 87

/-- Is the character an ASCII decimal digit? -/
def isDigitChar (c : Char) : Bool := 48 ≤ c.toNat && c.toNat ≤ 57

/-- Escape of one character inside a JSON string literal, exactly as
`JSON.stringify` performs it: quote and backslash get a backslash escape,
the named control characters get their short escapes, the remaining
control characters below U+0020 get `\u00XX` (lowercase hex), and every
other character is emitted verbatim. -/
def escapeChar (c : Char) : List Char :=
  if c = '"' then ['\\', '"']
  else if c = '\\' then ['\\', '\\']
  else if c = Char.ofNat 8 then ['\\', 'b']
  else if c = Char.ofNat 9 then ['\\', 't']
  else if c = Char.ofNat 10 then ['\\', 'n']
  else if c = Char.ofNat 12 then ['\\', 'f']
  else if c = Char.ofNat 13 then ['\\', 'r']
  else if c.toNat < 32 then
    ['\\', 'u', '0', '0', hexDigitChar (c.toNat / 16), hexDigitChar (c.toNat % 16)]
  else [c]

/-- Escape of a whole character sequence. -/
def escapeList : List Char → List Char
  | [] => []
  | c :: r => escapeChar c ++ escapeList r

/-- Cons a character onto the string part of a parser result. -/
def pcons (c : Char) : Option (List Char × List Char) → Option (List Char × List Char)
  | some (s, r) => some (c :: s, r)
  | none => none

/-- Unescape of a single-character JSON escape (the character after a
backslash), for the escapes `JSON.parse` accepts. -/
def unescape1 (e : Char) : Option Char :=
  if e = '"' then some '"'
  else if e = '\\' then some '\\'
  else if e = '/' then some '/'
  else if e = 'b' then some (Char.ofNat 8)
  else if e = 'f' then some (Char.ofNat 12)
  else if e = 'n' then some (Char.ofNat 10)
  else if e = 'r' then some (Char.ofNat 13)
  else if e = 't' then some (Char.ofNat 9)
  else none

/-- Parse of a JSON string body up to its closing quote, as `JSON.parse`
does after the opening quote: returns the unescaped content and the rest
of the input. Models the escapes of the JSON grammar; it is permissive on
raw control characters, which `encode` never emits. -/
def parseJStr : List Char → Option (List Char × List Char)
  | [] => none
  | '\\' :: 'u' :: h1 :: h2 :: h3 :: h4 :: r =>
    if isHexChar h1 && isHexChar h2 && isHexChar h3 && isHexChar h4 then
      pcons (Char.ofNat (((hexVal h1 * 16 + hexVal h2) * 16 + hexVal h3) * 16 + hexVal h4))
        (parseJStr r)
    else none
  | '\\' :: e :: r =>
    match unescape1 e with
    | some d => pcons d (parseJStr r)
    | none => none
  | '\\' :: [] => none
  | c :: rest => if c = '"' then some ([], rest) else pcons c (parseJStr rest)

/-- Decimal rendering of a natural number with explicit fuel (the fuel
bounds the number of digits; `n + 1` always suffices). -/
def natToStrAux : Nat → Nat → List Char
  | 0, _ => []
  | fuel + 1, n =>
    if n < 10 then [digitChar n] else natToStrAux fuel (n / 10) ++ [digitChar (n % 10)]

/-- Decimal rendering of a natural number, as `JSON.stringify` renders the
(integral) `transitionId`. -/
def natToStr (n : Nat) : List Char := natToStrAux (n + 1) n

/-- Longest digit span at the head of the input, with the rest. -/
def spanDigits : List Char → List Char × List Char
  | [] => ([], [])
  | c :: cs =>
    if isDigitChar c then
      let p := spanDigits cs
      (c :: p.1, p.2)
    else ([], c :: cs)

/-- Numeric value of a digit sequence (most significant first). -/
def digitsToNat (ds : List Char) : Nat :=
  ds.foldl (fun a c => a * 10 + (c.toNat - 48)) 0

/-- Strip of a literal expected sequence from the head of the input. -/
def stripPre : List Char → List Char → Option (List Char)
  | [], l => some l
  | p :: ps, c :: cs => if c = p then stripPre ps cs else none
  | _ :: _, [] => none

/-- Opening of the serialized token: a left brace, the quoted key
`issueKey`, a colon and the opening quote of the value. -/
def litKeyOpen : List Char := "\x7b\"issueKey\":\"".data

/-- Middle of the serialized token: the closing quote of the key value, a
comma and the quoted key `transitionId` with its colon. -/
def litMid : List Char := "\",\"transitionId\":".data

/-- Middle of the serialized token without its leading quote (what remains
after the string parser has consumed the closing quote). -/
def litMidTail : List Char := ",\"transitionId\":".data

/-- Closing right brace of the serialized token. -/
def litClose : List Char := "\x7d".data

/-- Serialization of the decision context: `JSON.stringify({ issueKey,
transitionId })` with properties in insertion order, as in
`src/unnamed/part_000` lines 157-158. -/
def encodeChars (ctx : ActionContext) : List Char :=
  litKeyOpen ++ escapeList ctx.issueKey.data ++ litMid ++ natToStr ctx.transitionId ++ litClose

/-- Encode of the decision context to the opaque button value. -/
def encode (ctx : ActionContext) : String := ⟨encodeChars ctx⟩

/-- Parse of the canonical serialized token back to a decision context.
Models `JSON.parse(action.value)` followed by destructuring of
`issueKey` and `transitionId` (`src/unnamed/part_000` line 191),
restricted to the canonical grammar `encode` emits; any other input
fails, as a thrown `SyntaxError` does. -/
def decodeChars (l : List Char) : Option ActionContext :=
  (stripPre litKeyOpen l).bind fun l1 =>
    (parseJStr l1).bind fun kl =>
      (stripPre litMidTail kl.2).bind fun l3 =>
        let p := spanDigits l3
        if p.1 = [] then none
        else if p.2 = litClose then some ⟨⟨kl.1⟩, digitsToNat p.1⟩
        else none

/-- Decode of an opaque button value. -/
def decode (s : String) : Option ActionContext := decodeChars s.data

/-! ## Observable events

Each Express handler is modelled as a function from a "world" (the
behaviour of every external collaborator) and a request to the list of
observable events it produces, in program order: external collaborator
calls, `console.error` log lines, mandated rate-limit pauses, and the
HTTP response. -/

/-- Result entry pushed for one recipient by the `/notify-approver` loop
(part_000 lines 171-173): `\x7bemail, ok\x7d` on success, `\x7bemail, ok:false,
error\x7d` on failure. -/
structure SendResult where
  email : String
  ok : Bool
  error : Option String
deriving DecidableEq, Repr

/-- Body of an HTTP response: a plain `res.send` text, an
`\x7bok:false, error\x7d` JSON body, or the `\x7bok:true, results\x7d` JSON body. -/
inductive RespBody
  | text (s : String)
  | jsonError (msg : String)
  | jsonResults (results : List SendResult)
deriving DecidableEq, Repr

/-- Observable step of a handler. -/
inductive Event
  | getIssueCall (issueKey : String)
  | lookupCall (email : String)
  | postMessageCall (userId : String)
  | transitionCall (issueKey : String) (transitionId : Nat)
  | usersInfoCall (userId : String)
  | addCommentCall (issueKey : String) (text : String)
  | chatUpdateCall (channel : String) (ts : Option String) (text : String)
  | responseUrlCall (url : String)
  | pause (ms : Nat)
  | logError (msg : String)
  | respond (status : Nat) (body : RespBody)
deriving DecidableEq, Repr

/-- Is the event a call to an external collaborator? -/
def isCollabCall : Event → Bool
  | .getIssueCall _ => true
  | .lookupCall _ => true
  | .postMessageCall _ => true
  | .transitionCall _ _ => true
  | .usersInfoCall _ => true
  | .addCommentCall _ _ => true
  | .chatUpdateCall _ _ _ => true
  | .responseUrlCall _ => true
  | _ => false

/-- Is the event the HTTP response? -/
def isRespondEvent : Event → Bool
  | .respond _ _ => true
  | _ => false

/-- Is the event a tracker transition call? -/
def isTransitionCall : Event → Bool
  | .transitionCall _ _ => true
  | _ => false

/-- Is the event a `chat.update` call? -/
def isChatUpdateCall : Event → Bool
  | .chatUpdateCall _ _ _ => true
  | _ => false

/-- Is the event a `console.error` log line? -/
def isLogError : Event → Bool
  | .logError _ => true
  | _ => false

/-- Is the event a rate-limit pause? -/
def isPauseEvent : Event → Bool
  | .pause _ => true
  | _ => false

/-- First HTTP response in the trace (Express sends one response per
request). -/
def responseOf : List Event → Option (Nat × RespBody)
  | [] => none
  | .respond s b :: _ => some (s, b)
  | _ :: r => responseOf r

/-- Does every response event in the trace come after the last
collaborator call, i.e. is no collaborator called once a response has
been sent? -/
def noCollabAfterRespond : List Event → Bool
  | [] => true
  | .respond _ _ :: r => r.all (fun e => !isCollabCall e)
  | _ :: r => noCollabAfterRespond r

/-- Is some response event in the trace strictly before every
collaborator call (the first response-or-collaborator event being a
response)? -/
def ackPrecedesCollabs : List Event → Bool
  | [] => true
  | .respond _ _ :: _ => true
  | e :: r => if isCollabCall e then false else ackPrecedesCollabs r

/-- Number of pause events in the trace. -/
def pauseCount (tr : List Event) : Nat := tr.countP isPauseEvent

/-- Total duration of the mandated `setTimeout` pauses in the trace. -/
def totalPause : List Event → Nat
  | [] => 0
  | .pause ms :: r => ms + totalPause r
  | _ :: r => totalPause r

/-! ## Security middleware

Model of the `app.use` middleware of `src/unnamed/part_000` lines
110-115: requests whose path starts with `/slack-actions` pass through;
otherwise the trimmed `Authorization` header must equal
`Bearer <SHARED_SECRET>` unless the secret is unset/empty (falsy), in
which case everything passes. An absent header is modelled as `none`
(`req.headers.authorization || ""`). -/

/-- Outcome of the middleware: invoke the route handler, or answer 401
without invoking it. -/
inductive MiddlewareStep
  | next
  | respond401
deriving DecidableEq, Repr

/-- Does `p` start with `q` (model of `String.prototype.startsWith`)? -/
def pathStartsWith (p q : String) : Bool := (stripPre q.data p.data).isSome

/-- Is the character whitespace for `String.prototype.trim` (space, tab,
line terminators, vertical tab, form feed, no-break space)? -/
def isJsWhitespace (c : Char) : Bool :=
  c.toNat = 32 || c.toNat = 9 || c.toNat = 10 || c.toNat = 11 || c.toNat = 12 ||
    c.toNat = 13 || c.toNat = 160

/-- Model of `String.prototype.trim`: strip whitespace from both ends. -/
def jsTrim (s : String) : String :=
  ⟨((s.data.dropWhile isJsWhitespace).reverse.dropWhile isJsWhitespace).reverse⟩

/-- Security middleware of part_000 lines 110-115. The unset `SHARED_SECRET`
environment variable is modelled as the empty string (both are falsy in
the `!SHARED_SECRET` test). -/
def securityMiddleware (sharedSecret : String) (path : String) (authHeader : Option String) :
    MiddlewareStep :=
  if pathStartsWith path "/slack-actions" then .next
  else if sharedSecret = "" ∨ jsTrim (authHeader.getD "") = "Bearer " ++ sharedSecret then .next
  else .respond401

/-! ## Notification fan-out (POST /notify-approver)

Model of the `/notify-approver` handler of `src/unnamed/part_000` lines
118-184: normalize `approverEmails`, reject an empty list with 400,
fetch the issue once, then loop over the recipients sequentially,
looking each up by email and sending the DM, recording per-recipient
success/failure, pausing `RATE_LIMIT_MS` after every attempt, and
finally answering with the result list. Message layout fields that feed
only the Slack block text (summary, url, requester, subsystems) are not
tracked by any claim and are left out of the request model. -/

/-- Shape of `body.approverEmails`: absent/falsy, a single string, or an
array of strings. -/
inductive EmailsInput
  | absent
  | str (s : String)
  | arr (xs : List String)
deriving DecidableEq, Repr

/-- Normalization of `body.approverEmails` (part_000 lines 121-122):
a falsy value (`undefined` or the empty string) yields `[]` through
`body.approverEmails || []`; a non-array value is wrapped and filtered
by truthiness (`[emails].filter(Boolean)`); an array is used as-is —
its elements are not filtered. -/
def normalizeEmails : EmailsInput → List String
  | .absent => []
  | .str s => if s = "" then [] else [s]
  | .arr xs => xs

/-- Behaviour of the collaborators the `/notify-approver` handler calls,
plus the configured `RATE_LIMIT_MS`. -/
structure NotifyWorld where
  getIssue : String → Except String Unit
  lookupUser : String → Except String String
  postMessage : String → Except String Unit
  rateLimitMs : Nat

/-- One iteration of the recipient loop (part_000 lines 136-177): look
the email up, send the DM, record the result; the rate-limit pause runs
after the try/catch in every case. -/
def dispatchOne (w : NotifyWorld) (email : String) : SendResult × List Event :=
  match w.lookupUser email with
  | .error e => (⟨email, false, some e⟩, [.lookupCall email, .pause w.rateLimitMs])
  | .ok userId =>
    match w.postMessage userId with
    | .error e =>
      (⟨email, false, some e⟩, [.lookupCall email, .postMessageCall userId, .pause w.rateLimitMs])
    | .ok _ =>
      (⟨email, true, none⟩, [.lookupCall email, .postMessageCall userId, .pause w.rateLimitMs])

/-- The sequential recipient loop: results in input order and the
concatenated event trace. -/
def dispatchLoop (w : NotifyWorld) : List String → List SendResult × List Event
  | [] => ([], [])
  | email :: rest =>
    let one := dispatchOne w email
    let more := dispatchLoop w rest
    (one.1 :: more.1, one.2 ++ more.2)

/-- Request body of POST /notify-approver (fields the claims depend on). -/
structure NotifyReq where
  approverEmails : EmailsInput
  issueKey : String
deriving DecidableEq, Repr

/-- Handler of POST /notify-approver (part_000 lines 118-184). -/
def notifyApprover (w : NotifyWorld) (req : NotifyReq) : List Event :=
  let emails := normalizeEmails req.approverEmails
  if emails.length = 0 then [.respond 400 (.jsonError "no approverEmails provided")]
  else
    match w.getIssue req.issueKey with
    | .error e =>
      [.getIssueCall req.issueKey, .logError ("Unhandled error: " ++ e),
        .respond 500 (.jsonError e)]
    | .ok _ =>
      let d := dispatchLoop w emails
      .getIssueCall req.issueKey :: (d.2 ++ [.respond 200 (.jsonResults d.1)])

/-! ## Interactive action handler of src/unnamed/part_000

Model of the `/slack-actions` handler of `src/unnamed/part_000` lines
187-232. The handler parses the envelope, parses the clicked button's
value, transitions the ticket in Jira, fetches the actor's Slack
profile, adds an attribution comment, rewrites the originating message
and only then sends the response: `res.send("")` on success (line 227)
or `res.status(500).send("Error processing action")` from the catch
(lines 228-231). The result of `JSON.parse(req.body.payload)` together
with the envelope destructuring (a JavaScript builtin plus field
accesses, lines 189-190) is passed in as an `Except`: `.error` when the
envelope is unparsable, `.ok` with the extracted fields otherwise. -/

/-- Envelope fields the handler reads: `payload.user.id`,
`payload.actions[0].value`, `payload.channel.id`, `payload.message?.ts`
and `payload.container?.message_ts`. -/
structure SlackPayload where
  userId : String
  actionValue : String
  channelId : String
  messageTs : Option String
  containerMessageTs : Option String
deriving DecidableEq, Repr

/-- Profile fields of `users.info` used by the fallback chain. -/
structure SlackProfile where
  real_name : Option String
  display_name : Option String
  email : Option String
deriving DecidableEq, Repr

/-- Response of the Jira transition endpoint: success, a conflict for an
already-applied transition, or any other HTTP error. -/
inductive TrackerResp
  | ok
  | conflict
  | httpError
deriving DecidableEq, Repr

/-- Behaviour of the collaborators the part_000 action handler calls. -/
structure ActionWorld where
  transition : String → Nat → TrackerResp
  usersInfo : String → Except String SlackProfile
  addComment : String → String → Except String Unit
  chatUpdate : String → Option String → String → Except String Unit

/-- Outcome of `jiraTransition` (part_000 lines 67-79): the function
checks only `res.ok` and throws `Jira transition failed for <key>` on
any non-2xx response — a `Conflict` (already-applied transition) is not
distinguished from any other failure. -/
def jiraTransitionCall (resp : TrackerResp) (issueKey : String) : Except String Unit :=
  match resp with
  | .ok => .ok ()
  | .conflict => .error ("Jira transition failed for " ++ issueKey)
  | .httpError => .error ("Jira transition failed for " ++ issueKey)

/-- The `a || b` fallback on JavaScript strings: `undefined` and the
empty string are falsy and fall through to `b`. -/
def jsOrStr (a : Option String) (b : String) : String :=
  match a with
  | none => b
  | some s => if s = "" then b else s

/-- The `a || b` fallback where both operands may be absent. -/
def jsOrOptStr (a b : Option String) : Option String :=
  match a with
  | none => b
  | some s => if s = "" then b else some s

/-- Fallback chain for the approver's display name (part_000 lines
198-202): real name, display name, email, raw Slack user id. -/
def approverNameOf (prof : SlackProfile) (userId : String) : String :=
  jsOrStr prof.real_name (jsOrStr prof.display_name (jsOrStr prof.email userId))

/-- Decision string (part_000 line 205). -/
def decisionOf (transitionId : Nat) : String :=
  if transitionId = 61 then "✅ Approved" else "❌ Rejected"

/-- Attribution comment text (part_000 line 206). -/
def commentTextOf (decision name : String) : String :=
  "Ticket has been " ++ decision ++ " by " ++ name ++
    ". Action done and comment added automatically via the IAM Approver Slack bot. "

/-- Message timestamp pick (part_000 line 209):
`payload.message?.ts || payload.container?.message_ts`. -/
def tsOf (p : SlackPayload) : Option String := jsOrOptStr p.messageTs p.containerMessageTs

/-- Identifiers visible at the `chat.update` call site inside the
`/slack-actions` handler of part_000 (lines 212-225): the handler's
parameters and local bindings (lines 187-209), the module-level
constants (lines 10-15 and 234), the helper functions (lines 23-107)
and the imported names (lines 1-3, 5). The identifier `issueUrl` is
bound only inside the separate `/notify-approver` handler (line 125)
and is not among them; nor is it a global. -/
def part000UpdateScope : List String :=
  ["req", "res", "payload", "action", "issueKey", "transitionId", "slackUserInfo",
   "approverName", "decision", "ts",
   "express", "bodyParser", "fetch", "app",
   "SLACK_BOT_TOKEN", "SHARED_SECRET", "RATE_LIMIT_MS", "JIRA_BASE_URL",
   "JIRA_USER_EMAIL", "JIRA_API_TOKEN",
   "slackPost", "slackGet", "lookupUserIdByEmail", "jiraGetIssue",
   "jiraTransition", "jiraAddComment", "port"]

/-- Value of the identifier `issueUrl` at the update call site of
part_000: `none`, because no binding with that name is in scope there —
evaluating it in the template literal of line 221 throws a
`ReferenceError`. The `some`-branch value is irrelevant: it is present
only to keep the definition total and the lookup honest, and it is dead
because `issueUrl` is not in `part000UpdateScope`. -/
def part000IssueUrlAtUpdate : Option String :=
  if part000UpdateScope.contains "issueUrl" then some "" else none

/-- Argument object of the `chat.update` call. -/
structure UpdateArgs where
  channel : String
  ts : Option String
  text : String
deriving DecidableEq, Repr

/-- Evaluation of the `chat.update` argument object (part_000 lines
212-225). The blocks text of line 221 interpolates `issueUrl`; since
that identifier is unbound, evaluating the object throws a
`ReferenceError` before `slackPost` is ever invoked. -/
def part000UpdateArgs (channelId : String) (ts : Option String) (issueKey decision : String) :
    Except String UpdateArgs :=
  match part000IssueUrlAtUpdate with
  | none => .error "ReferenceError: issueUrl is not defined"
  | some u =>
    .ok ⟨channelId, ts,
      "Ticket *<" ++ u ++ "|" ++ issueKey ++ ">* has been " ++ decision ++ ". Thank you!"⟩

/-- The work after the token has been decoded (part_000 lines 194-225):
transition, profile fetch, comment, message update. Returns the
collaborator-call events made and the error message of the first thrown
exception, if any. -/
def part000Suffix (w : ActionWorld) (p : SlackPayload) (ctx : ActionContext) :
    List Event × Option String :=
  let tEv := Event.transitionCall ctx.issueKey ctx.transitionId
  match jiraTransitionCall (w.transition ctx.issueKey ctx.transitionId) ctx.issueKey with
  | .error e => ([tEv], some e)
  | .ok _ =>
    let uEv := Event.usersInfoCall p.userId
    match w.usersInfo p.userId with
    | .error e => ([tEv, uEv], some e)
    | .ok prof =>
      let decision := decisionOf ctx.transitionId
      let name := approverNameOf prof p.userId
      let cText := commentTextOf decision name
      let cEv := Event.addCommentCall ctx.issueKey cText
      match w.addComment ctx.issueKey cText with
      | .error e => ([tEv, uEv, cEv], some e)
      | .ok _ =>
        match part000UpdateArgs p.channelId (tsOf p) ctx.issueKey decision with
        | .error e => ([tEv, uEv, cEv], some e)
        | .ok args =>
          let upEv := Event.chatUpdateCall args.channel args.ts args.text
          match w.chatUpdate args.channel args.ts args.text with
          | .error e => ([tEv, uEv, cEv, upEv], some e)
          | .ok _ => ([tEv, uEv, cEv, upEv], none)

/-- Handler of POST /slack-actions in part_000 (lines 187-232). -/
def part000SlackActions (w : ActionWorld) (env : Except String SlackPayload) : List Event :=
  match env with
  | .error e =>
    [.logError ("Error handling Slack action: " ++ e),
     .respond 500 (.text "Error processing action")]
  | .ok p =>
    match decode p.actionValue with
    | none =>
      [.logError "Error handling Slack action: SyntaxError",
       .respond 500 (.text "Error processing action")]
    | some ctx =>
      let s := part000Suffix w p ctx
      match s.2 with
      | some e =>
        s.1 ++ [.logError ("Error handling Slack action: " ++ e),
          .respond 500 (.text "Error processing action")]
      | none => s.1 ++ [.respond 200 (.text "")]

/-! ## Interactive action handler of src/server.js

Model of the `/slack-actions` handler of `src/server.js` lines 396-433:
parse the envelope and the button value (`\x7bkey, transitionId\x7d`), call
the Jira transition endpoint (throwing on any non-2xx response), post
the confirmation to `payload.response_url`, then `res.send("")`; the
catch logs and also sends `res.send("")` (lines 429-432). -/

/-- Fields of the parsed envelope and button value that the server.js
handler reads. -/
structure SrvAction where
  key : String
  transitionId : Nat
  responseUrl : String
deriving DecidableEq, Repr

/-- Behaviour of the collaborators the server.js action handler calls. -/
structure SrvWorld where
  transition : String → Nat → TrackerResp
  responseUrlPost : String → Except String Unit

/-- Handler of POST /slack-actions in server.js (lines 396-433). -/
def serverJsSlackActions (w : SrvWorld) (env : Except String SrvAction) : List Event :=
  match env with
  | .error e =>
    [.logError ("Slack action error: " ++ e), .respond 200 (.text "")]
  | .ok a =>
    let tEv := Event.transitionCall a.key a.transitionId
    match w.transition a.key a.transitionId with
    | .ok =>
      let uEv := Event.responseUrlCall a.responseUrl
      match w.responseUrlPost a.responseUrl with
      | .error e => [tEv, uEv, .logError ("Slack action error: " ++ e), .respond 200 (.text "")]
      | .ok _ => [tEv, uEv, .respond 200 (.text "")]
    | _ => [tEv, .logError "Slack action error: Jira transition failed", .respond 200 (.text "")]

/-! ## Concrete worlds and requests used by witnesses and counterexamples -/

/-- Payload of a concrete approve click on ticket IAM-100. -/
def pA : SlackPayload :=
  { userId := "U7", actionValue := encode ⟨"IAM-100", 61⟩, channelId := "C1",
    messageTs := some "111.222", containerMessageTs := none }

/-- World in which every collaborator succeeds. -/
def wAllOk : ActionWorld :=
  { transition := fun _ _ => .ok,
    usersInfo := fun _ => .ok ⟨some "Jane Doe", none, none⟩,
    addComment := fun _ _ => .ok (),
    chatUpdate := fun _ _ _ => .ok () }

/-- World whose tracker answers `Conflict` (transition already applied). -/
def wConflict : ActionWorld :=
  { transition := fun _ _ => .conflict,
    usersInfo := fun _ => .ok ⟨some "Jane Doe", none, none⟩,
    addComment := fun _ _ => .ok (),
    chatUpdate := fun _ _ _ => .ok () }

/-- World whose tracker is unreachable. -/
def wTrackerDown : ActionWorld :=
  { transition := fun _ _ => .httpError,
    usersInfo := fun _ => .ok ⟨some "Jane Doe", none, none⟩,
    addComment := fun _ _ => .ok (),
    chatUpdate := fun _ _ _ => .ok () }

/-- server.js world whose tracker is unreachable. -/
def swTrackerDown : SrvWorld :=
  { transition := fun _ _ => .httpError, responseUrlPost := fun _ => .ok () }

/-- server.js world whose tracker succeeds but whose message-update post
to `response_url` fails. -/
def swUpdateFails : SrvWorld :=
  { transition := fun _ _ => .ok, responseUrlPost := fun _ => .error "post failed" }

/-- server.js world in which every collaborator succeeds. -/
def swAllOk : SrvWorld :=
  { transition := fun _ _ => .ok, responseUrlPost := fun _ => .ok () }

/-- Concrete parsed server.js action: approve of IAM-100. -/
def srvA : SrvAction := { key := "IAM-100", transitionId := 61, responseUrl := "https://hook" }

/-- Payload whose button value is not valid JSON (corrupted token). -/
def pBad : SlackPayload :=
  { userId := "U7", actionValue := "notjson", channelId := "C1",
    messageTs := none, containerMessageTs := none }

/-- Notify world in which every collaborator succeeds. -/
def wNotifyOk : NotifyWorld :=
  { getIssue := fun _ => .ok (), lookupUser := fun _ => .ok "U1",
    postMessage := fun _ => .ok (), rateLimitMs := 200 }

/-- Notify world in which looking up `a@x` fails and everything else
succeeds. -/
def wNotifyAFails : NotifyWorld :=
  { getIssue := fun _ => .ok (),
    lookupUser := fun e => if e = "a@x" then .error "users_not_found" else .ok "U2",
    postMessage := fun _ => .ok (), rateLimitMs := 200 }

/-! ## Codec round-trip lemmas -/

theorem isHexChar_hexDigitChar (n : Nat) (h : n < 16) : isHexChar (hexDigitChar n) = true := by
  interval_cases n <;> decide

theorem hexVal_hexDigitChar (n : Nat) (h : n < 16) : hexVal (hexDigitChar n) = n := by
  interval_cases n <;> decide

theorem parseJStr_quote (rest : List Char) : parseJStr ('"' :: rest) = some ([], rest) := rfl

theorem parseJStr_cons (c : Char) (m : List Char) (h2 : c ≠ '\\') :
    parseJStr (c :: m) = if c = '"' then some ([], m) else pcons c (parseJStr m) := by
  rw [parseJStr.eq_def]
  split
  all_goals first
    | exact absurd rfl h2
    | (rename_i heq
       first
         | exact absurd heq (List.cons_ne_nil c m)
         | (injection heq with hc hm
            first
              | exact absurd hc h2
              | (subst hc; subst hm; rfl)))

theorem parseJStr_escapeChar (c : Char) (m : List Char) :
    parseJStr (escapeChar c ++ m) = pcons c (parseJStr m) := by
  by_cases h1 : c = '"'
  · subst h1
    show parseJStr ('\\' :: '"' :: m) = _
    rfl
  by_cases h2 : c = '\\'
  · subst h2; rfl
  by_cases h3 : c = Char.ofNat 8
  · subst h3; rfl
  by_cases h4 : c = Char.ofNat 9
  · subst h4; rfl
  by_cases h5 : c = Char.ofNat 10
  · subst h5; rfl
  by_cases h6 : c = Char.ofNat 12
  · subst h6; rfl
  by_cases h7 : c = Char.ofNat 13
  · subst h7; rfl
  by_cases h8 : c.toNat < 32
  · have hdiv : c.toNat / 16 < 16 := by omega
    have hmod : c.toNat % 16 < 16 := Nat.mod_lt _ (by omega)
    have he : escapeChar c =
        ['\\', 'u', '0', '0', hexDigitChar (c.toNat / 16), hexDigitChar (c.toNat % 16)] := by
      unfold escapeChar
      rw [if_neg h1, if_neg h2, if_neg h3, if_neg h4, if_neg h5, if_neg h6, if_neg h7, if_pos h8]
    rw [he]
    show parseJStr ('\\' :: 'u' :: '0' :: '0' :: hexDigitChar (c.toNat / 16) ::
      hexDigitChar (c.toNat % 16) :: m) = _
    have step : parseJStr ('\\' :: 'u' :: '0' :: '0' :: hexDigitChar (c.toNat / 16) ::
        hexDigitChar (c.toNat % 16) :: m) =
        if isHexChar '0' && isHexChar '0' && isHexChar (hexDigitChar (c.toNat / 16)) &&
            isHexChar (hexDigitChar (c.toNat % 16)) then
          pcons (Char.ofNat (((hexVal '0' * 16 + hexVal '0') * 16 +
            hexVal (hexDigitChar (c.toNat / 16))) * 16 + hexVal (hexDigitChar (c.toNat % 16))))
            (parseJStr m)
        else none := rfl
    rw [step, isHexChar_hexDigitChar _ hdiv, isHexChar_hexDigitChar _ hmod,
      hexVal_hexDigitChar _ hdiv, hexVal_hexDigitChar _ hmod]
    have hv0 : hexVal '0' = 0 := by decide
    rw [hv0]
    simp only [Bool.and_self, Bool.and_true, if_true]
    have hx : ((0 * 16 + 0) * 16 + c.toNat / 16) * 16 + c.toNat % 16 = c.toNat := by omega
    rw [hx, Char.ofNat_toNat]
    have hg : isHexChar '0' = true := by decide
    simp [hg]
  · have he : escapeChar c = [c] := by
      unfold escapeChar
      rw [if_neg h1, if_neg h2, if_neg h3, if_neg h4, if_neg h5, if_neg h6, if_neg h7, if_neg h8]
    rw [he]
    show parseJStr (c :: m) = _
    rw [parseJStr_cons c m h2, if_neg h1]

theorem parseJStr_escapeList (l rest : List Char) :
    parseJStr (escapeList l ++ '"' :: rest) = some (l, rest) := by
  induction l with
  | nil =>
    show parseJStr ('"' :: rest) = _
    exact parseJStr_quote rest
  | cons c l ih =>
    show parseJStr (escapeChar c ++ escapeList l ++ '"' :: rest) = _
    rw [List.append_assoc, parseJStr_escapeChar, ih]
    rfl

theorem stripPre_self (p r : List Char) : stripPre p (p ++ r) = some r := by
  induction p with
  | nil => rfl
  | cons a ps ih => simp [stripPre, ih]

theorem natToStrAux_fuel (f1 : Nat) : ∀ f2 n : Nat, n < f1 → n < f2 →
    natToStrAux f1 n = natToStrAux f2 n := by
  induction f1 with
  | zero => omega
  | succ f ih =>
    intro f2 n h1 h2
    cases f2 with
    | zero => omega
    | succ g =>
      simp only [natToStrAux]
      by_cases hn : n < 10
      · simp [hn]
      · rw [if_neg hn, if_neg hn]
        have hlt : n / 10 < n := Nat.div_lt_self (by omega) (by omega)
        rw [ih g (n / 10) (by omega) (by omega)]

theorem natToStr_eq (n : Nat) :
    natToStr n = if n < 10 then [digitChar n] else natToStr (n / 10) ++ [digitChar (n % 10)] := by
  show natToStrAux (n + 1) n = _
  simp only [natToStrAux]
  by_cases hn : n < 10
  · simp [hn]
  · rw [if_neg hn, if_neg hn]
    have hlt : n / 10 < n := Nat.div_lt_self (by omega) (by omega)
    rw [natToStrAux_fuel n (n / 10 + 1) (n / 10) (by omega) (by omega)]
    rfl

theorem natToStr_ne_nil (n : Nat) : natToStr n ≠ [] := by
  rw [natToStr_eq]
  split <;> simp

theorem isDigitChar_digitChar (n : Nat) (h : n < 10) : isDigitChar (digitChar n) = true := by
  interval_cases n <;> decide

theorem digitChar_toNat (n : Nat) (h : n < 10) : (digitChar n).toNat = 48 + n := by
  interval_cases n <;> decide

theorem natToStr_digits (n : Nat) : ∀ c ∈ natToStr n, isDigitChar c = true := by
  induction n using Nat.strong_induction_on with
  | _ n ih =>
    rw [natToStr_eq]
    split
    · next h =>
      intro c hc
      simp only [List.mem_singleton] at hc
      subst hc
      exact isDigitChar_digitChar n h
    · next h =>
      intro c hc
      rw [List.mem_append] at hc
      rcases hc with hc | hc
      · exact ih (n / 10) (Nat.div_lt_self (by omega) (by omega)) c hc
      · simp only [List.mem_singleton] at hc
        subst hc
        exact isDigitChar_digitChar _ (Nat.mod_lt _ (by omega))

theorem spanDigits_split (ds r : List Char) (hds : ∀ c ∈ ds, isDigitChar c = true)
    (hr : ∀ c, r.head? = some c → isDigitChar c = false) :
    spanDigits (ds ++ r) = (ds, r) := by
  induction ds with
  | nil =>
    cases r with
    | nil => rfl
    | cons c cs => simp [spanDigits, hr c rfl]
  | cons d ds ih =>
    have hd := hds d (by simp)
    simp [spanDigits, hd, ih (fun c hc => hds c (by simp [hc]))]

theorem foldl_natToStr (n : Nat) : ∀ a : Nat,
    (natToStr n).foldl (fun x c => x * 10 + (c.toNat - 48)) a =
      a * 10 ^ (natToStr n).length + n := by
  induction n using Nat.strong_induction_on with
  | _ n ih =>
    intro a
    rw [natToStr_eq]
    split
    · next h =>
      simp only [List.foldl, List.length_singleton, pow_one, digitChar_toNat n h]
      omega
    · next h =>
      rw [List.foldl_append, ih (n / 10) (Nat.div_lt_self (by omega) (by omega)) a]
      simp only [List.foldl, List.length_append, List.length_singleton,
        digitChar_toNat (n % 10) (Nat.mod_lt _ (by omega))]
      rw [pow_succ]
      have hdm : 10 * (n / 10) + n % 10 = n := Nat.div_add_mod n 10
      set L := 10 ^ (natToStr (n / 10)).length with hL
      have : (a * L + n / 10) * 10 + (48 + n % 10 - 48) = a * (L * 10) + n := by
        rw [Nat.add_sub_cancel_left, Nat.add_mul, Nat.mul_assoc]
        omega
      rw [this]

theorem digitsToNat_natToStr (n : Nat) : digitsToNat (natToStr n) = n := by
  unfold digitsToNat
  rw [foldl_natToStr n 0]
  simp

theorem litMid_shape : litMid = '"' :: litMidTail := by decide

/-- C4: for every valid decision context, decoding the encoded action token
yields the original context: `decode (encode ctx) = some ctx`, where `encode`
is the `JSON.stringify` serialization embedded in a button
(`src/unnamed/part_000` lines 157-158) and `decode` the click handler's
`JSON.parse` of the button value (line 191). -/
theorem c4_decode_encode_roundtrip (ctx : ActionContext) : decode (encode ctx) = some ctx := by
  obtain ⟨key, tid⟩ := ctx
  show decodeChars (encodeChars ⟨key, tid⟩) = _
  unfold encodeChars decodeChars
  simp only [List.append_assoc]
  rw [litMid_shape]
  simp only [List.cons_append]
  rw [stripPre_self, Option.some_bind, parseJStr_escapeList, Option.some_bind,
    stripPre_self, Option.some_bind]
  have hspan : spanDigits (natToStr tid ++ litClose) = (natToStr tid, litClose) := by
    refine spanDigits_split _ _ (natToStr_digits tid) ?_
    intro c hc
    have hc125 : c = Char.ofNat 125 := by
      simpa [litClose] using hc.symm
    subst hc125
    decide
  simp only [hspan]
  rw [if_neg (natToStr_ne_nil tid), if_pos trivial, digitsToNat_natToStr]

/-! ## Trace lemmas -/

theorem responseOf_append (evs tail : List Event) (h : evs.countP isRespondEvent = 0) :
    responseOf (evs ++ tail) = responseOf tail := by
  induction evs with
  | nil => rfl
  | cons e rest ih =>
    rw [List.countP_cons] at h
    cases e <;> simp only [isRespondEvent, reduceIte, Nat.add_zero] at h <;>
      first
        | omega
        | simpa [responseOf] using ih h

theorem noCollabAfterRespond_append (evs tail : List Event)
    (h : evs.countP isRespondEvent = 0) :
    noCollabAfterRespond (evs ++ tail) = noCollabAfterRespond tail := by
  induction evs with
  | nil => rfl
  | cons e rest ih =>
    rw [List.countP_cons] at h
    cases e <;> simp only [isRespondEvent, reduceIte, Nat.add_zero] at h <;>
      first
        | omega
        | simpa [noCollabAfterRespond] using ih h

theorem part000UpdateArgs_err (ch : String) (ts : Option String) (ik d : String) :
    part000UpdateArgs ch ts ik d = .error "ReferenceError: issueUrl is not defined" := rfl

theorem part000Suffix_spec (w : ActionWorld) (p : SlackPayload) (ctx : ActionContext) :
    (part000Suffix w p ctx).2.isSome = true ∧
    (part000Suffix w p ctx).1.countP isRespondEvent = 0 ∧
    (part000Suffix w p ctx).1.countP isLogError = 0 ∧
    (part000Suffix w p ctx).1.countP isChatUpdateCall = 0 ∧
    (part000Suffix w p ctx).1.countP isTransitionCall ≤ 1 := by
  cases hjt : jiraTransitionCall (w.transition ctx.issueKey ctx.transitionId) ctx.issueKey with
  | error e =>
    simp [part000Suffix, hjt, List.countP_cons, isRespondEvent, isLogError,
      isChatUpdateCall, isTransitionCall]
  | ok u =>
    cases hui : w.usersInfo p.userId with
    | error e =>
      simp [part000Suffix, hjt, hui, List.countP_cons, isRespondEvent, isLogError,
        isChatUpdateCall, isTransitionCall]
    | ok prof =>
      cases hac : w.addComment ctx.issueKey
          (commentTextOf (decisionOf ctx.transitionId) (approverNameOf prof p.userId)) with
      | error e =>
        simp [part000Suffix, hjt, hui, hac, List.countP_cons, isRespondEvent, isLogError,
          isChatUpdateCall, isTransitionCall]
      | ok u2 =>
        simp [part000Suffix, hjt, hui, hac, part000UpdateArgs_err, List.countP_cons,
          isRespondEvent, isLogError, isChatUpdateCall, isTransitionCall]

theorem part000_always_500 (w : ActionWorld) (env : Except String SlackPayload) :
    responseOf (part000SlackActions w env) = some (500, .text "Error processing action") := by
  cases env with
  | error e => rfl
  | ok p =>
    cases hd : decode p.actionValue with
    | none => simp [part000SlackActions, hd, responseOf]
    | some ctx =>
      have hs := part000Suffix_spec w p ctx
      obtain ⟨e, he⟩ := Option.isSome_iff_exists.mp hs.1
      simp only [part000SlackActions, hd, he]
      rw [responseOf_append _ _ hs.2.1]
      rfl

/-! ## Claim theorems for the interactive action path -/

/-- C10: in the part_000 interactive-action handler, the message-update
step interpolates the identifier `issueUrl`, which is bound neither in
the handler nor at module scope; evaluating the `chat.update` argument
therefore throws a `ReferenceError` on every path that reaches it, the
originating message is never rewritten (no `chat.update` call is ever
issued), and the handler always ends in its error branch with the 500
response. -/
theorem c10_issueUrl_unbound (w : ActionWorld) (env : Except String SlackPayload) :
    part000UpdateScope.contains "issueUrl" = false ∧
    (∀ ch ts ik d, part000UpdateArgs ch ts ik d =
      .error "ReferenceError: issueUrl is not defined") ∧
    (∀ p ctx, (part000Suffix w p ctx).2.isSome = true) ∧
    (part000SlackActions w env).countP isChatUpdateCall = 0 ∧
    responseOf (part000SlackActions w env) = some (500, .text "Error processing action") := by
  refine ⟨by decide, part000UpdateArgs_err, fun p ctx => (part000Suffix_spec w p ctx).1,
    ?_, part000_always_500 w env⟩
  cases env with
  | error e => rfl
  | ok p =>
    cases hd : decode p.actionValue with
    | none => simp [part000SlackActions, hd, List.countP_cons, isChatUpdateCall]
    | some ctx =>
      have hs := part000Suffix_spec w p ctx
      obtain ⟨e, he⟩ := Option.isSome_iff_exists.mp hs.1
      simp only [part000SlackActions, hd, he]
      rw [List.countP_append, hs.2.2.2.1]
      simp [List.countP_cons, isChatUpdateCall]

/-- C2 counterexample: for a concrete successful click on IAM-100, the
part_000 handler's first observable event is the tracker transition
call, and no acknowledgment precedes any collaborator call; the
server.js handler likewise calls the tracker before responding. This
refutes the claim that the empty acknowledgment is sent before any
collaborator call of the asynchronous suffix begins. -/
theorem c2_ack_first_counterexample :
    ackPrecedesCollabs (part000SlackActions wAllOk (.ok pA)) = false ∧
    (part000SlackActions wAllOk (.ok pA)).head? = some (.transitionCall "IAM-100" 61) ∧
    ackPrecedesCollabs (serverJsSlackActions swAllOk (.ok srvA)) = false := by decide

/-- C2 corrected: both `/slack-actions` handlers are fully synchronous —
the response is sent only after every collaborator call has completed;
no collaborator call begins once the response has been sent (there is
no asynchronous suffix after the acknowledgment). -/
theorem c2_response_after_collaborators (w : ActionWorld) (sw : SrvWorld)
    (env : Except String SlackPayload) (senv : Except String SrvAction) :
    noCollabAfterRespond (part000SlackActions w env) = true ∧
    noCollabAfterRespond (serverJsSlackActions sw senv) = true := by
  constructor
  · cases env with
    | error e => rfl
    | ok p =>
      cases hd : decode p.actionValue with
      | none => simp [part000SlackActions, hd, noCollabAfterRespond, isCollabCall]
      | some ctx =>
        have hs := part000Suffix_spec w p ctx
        obtain ⟨e, he⟩ := Option.isSome_iff_exists.mp hs.1
        simp only [part000SlackActions, hd, he]
        rw [noCollabAfterRespond_append _ _ hs.2.1]
        rfl
  · cases senv with
    | error e => rfl
    | ok a =>
      cases ht : sw.transition a.key a.transitionId with
      | ok =>
        cases hu : sw.responseUrlPost a.responseUrl with
        | error e => simp [serverJsSlackActions, ht, hu, noCollabAfterRespond, isCollabCall]
        | ok u => simp [serverJsSlackActions, ht, hu, noCollabAfterRespond, isCollabCall]
      | conflict => simp [serverJsSlackActions, ht, noCollabAfterRespond, isCollabCall]
      | httpError => simp [serverJsSlackActions, ht, noCollabAfterRespond, isCollabCall]

/-- C1 counterexample: for a concrete duplicate delivery whose tracker
answers `Conflict`, the part_000 handler issues no `chat.update` call
and surfaces a 500 error response instead of the empty acknowledgment —
refuting the claim that a Conflict is treated as idempotent success
with the message update still attempted and no error surfaced. -/
theorem c1_conflict_counterexample :
    (part000SlackActions wConflict (.ok pA)).countP isChatUpdateCall = 0 ∧
    responseOf (part000SlackActions wConflict (.ok pA)) =
      some (500, .text "Error processing action") ∧
    responseOf (part000SlackActions wConflict (.ok pA)) ≠ some (200, .text "") := by decide

/-- C1 corrected: when the tracker reports the transition already applied
(`Conflict`), `jiraTransition` throws like any other failure, so the
handler stops after the transition call: the originating message update
is not attempted and a 500 error response is surfaced to the chat
platform. -/
theorem c1_conflict_is_error (w : ActionWorld) (p : SlackPayload) (ctx : ActionContext)
    (hd : decode p.actionValue = some ctx)
    (hc : w.transition ctx.issueKey ctx.transitionId = .conflict) :
    part000SlackActions w (.ok p) =
      [.transitionCall ctx.issueKey ctx.transitionId,
       .logError ("Error handling Slack action: " ++ ("Jira transition failed for " ++ ctx.issueKey)),
       .respond 500 (.text "Error processing action")] := by
  simp [part000SlackActions, hd, part000Suffix, jiraTransitionCall, hc]

/-- C1 witness: the corrected behaviour at the concrete conflict world. -/
theorem c1_conflict_is_error_witness :
    (decode pA.actionValue = some ⟨"IAM-100", 61⟩) ∧
    (wConflict.transition "IAM-100" 61 = .conflict) ∧
    part000SlackActions wConflict (.ok pA) =
      [.transitionCall "IAM-100" 61,
       .logError ("Error handling Slack action: " ++ ("Jira transition failed for " ++ "IAM-100")),
       .respond 500 (.text "Error processing action")] :=
  ⟨by decide, rfl, c1_conflict_is_error wConflict pA ⟨"IAM-100", 61⟩ (by decide) rfl⟩

/-- C3 counterexample: with the tracker unreachable, the part_000 handler
answers 500 "Error processing action" — the failure in the
action-processing steps is surfaced to the chat platform, refuting the
claim that such failures are logged only and never surfaced. -/
theorem c3_failure_surfaced_counterexample :
    responseOf (part000SlackActions wTrackerDown (.ok pA)) =
      some (500, .text "Error processing action") ∧
    (part000SlackActions wTrackerDown (.ok pA)).countP isLogError = 1 ∧
    responseOf (part000SlackActions wTrackerDown (.ok pA)) ≠ some (200, .text "") := by decide

/-- C3 corrected: a failure in the action-processing steps — for
server.js, a failing tracker transition (unreachable or conflict) or a
failing message-update post to `response_url` — is logged exactly once
and never retried (the tracker transition is called at most once per
delivery) in both handlers; but only the server.js handler hides it
behind the empty 200 acknowledgment — the part_000 handler surfaces a
500 error response instead. -/
theorem c3_failures_logged_not_retried (w : ActionWorld) (sw : SrvWorld) (p : SlackPayload)
    (ctx : ActionContext) (a : SrvAction)
    (hd : decode p.actionValue = some ctx)
    (hsf : sw.transition a.key a.transitionId ≠ .ok ∨
      ∃ msg, sw.responseUrlPost a.responseUrl = .error msg) :
    ((part000SlackActions w (.ok p)).countP isLogError = 1 ∧
     (part000SlackActions w (.ok p)).countP isTransitionCall ≤ 1 ∧
     responseOf (part000SlackActions w (.ok p)) = some (500, .text "Error processing action")) ∧
    ((serverJsSlackActions sw (.ok a)).countP isLogError = 1 ∧
     (serverJsSlackActions sw (.ok a)).countP isTransitionCall ≤ 1 ∧
     responseOf (serverJsSlackActions sw (.ok a)) = some (200, .text "")) := by
  have hs := part000Suffix_spec w p ctx
  obtain ⟨e, he⟩ := Option.isSome_iff_exists.mp hs.1
  refine ⟨⟨?_, ?_, part000_always_500 w (.ok p)⟩, ?_⟩
  · simp only [part000SlackActions, hd, he]
    rw [List.countP_append, hs.2.2.1]
    simp [List.countP_cons, isLogError]
  · simp only [part000SlackActions, hd, he]
    rw [List.countP_append]
    have h1 := hs.2.2.2.2
    have h2 : List.countP isTransitionCall
        [Event.logError ("Error handling Slack action: " ++ e),
         Event.respond 500 (.text "Error processing action")] = 0 := by
      simp [isTransitionCall]
    omega
  · cases ht : sw.transition a.key a.transitionId with
    | ok =>
      rcases hsf with hne | ⟨msg, hu⟩
      · exact absurd ht hne
      · simp [serverJsSlackActions, ht, hu, List.countP_cons, isLogError, isTransitionCall,
          responseOf]
    | conflict =>
      simp [serverJsSlackActions, ht, List.countP_cons, isLogError, isTransitionCall,
        responseOf]
    | httpError =>
      simp [serverJsSlackActions, ht, List.countP_cons, isLogError, isTransitionCall,
        responseOf]

/-- C3 witness: the corrected behaviour at concrete failing worlds,
exercising both server.js failure modes — the tracker unreachable, and
the tracker succeeding while the `response_url` message-update post
fails. -/
theorem c3_failures_logged_not_retried_witness :
    (decode pA.actionValue = some ⟨"IAM-100", 61⟩) ∧
    (swTrackerDown.transition "IAM-100" 61 ≠ .ok) ∧
    (swUpdateFails.responseUrlPost "https://hook" = .error "post failed") ∧
    (((part000SlackActions wTrackerDown (.ok pA)).countP isLogError = 1 ∧
      (part000SlackActions wTrackerDown (.ok pA)).countP isTransitionCall ≤ 1 ∧
      responseOf (part000SlackActions wTrackerDown (.ok pA)) =
        some (500, .text "Error processing action")) ∧
     ((serverJsSlackActions swTrackerDown (.ok srvA)).countP isLogError = 1 ∧
      (serverJsSlackActions swTrackerDown (.ok srvA)).countP isTransitionCall ≤ 1 ∧
      responseOf (serverJsSlackActions swTrackerDown (.ok srvA)) = some (200, .text ""))) ∧
    (((part000SlackActions wAllOk (.ok pA)).countP isLogError = 1 ∧
      (part000SlackActions wAllOk (.ok pA)).countP isTransitionCall ≤ 1 ∧
      responseOf (part000SlackActions wAllOk (.ok pA)) =
        some (500, .text "Error processing action")) ∧
     ((serverJsSlackActions swUpdateFails (.ok srvA)).countP isLogError = 1 ∧
      (serverJsSlackActions swUpdateFails (.ok srvA)).countP isTransitionCall ≤ 1 ∧
      responseOf (serverJsSlackActions swUpdateFails (.ok srvA)) = some (200, .text ""))) :=
  ⟨by decide, by decide, rfl,
    c3_failures_logged_not_retried wTrackerDown swTrackerDown pA ⟨"IAM-100", 61⟩ srvA
      (by decide) (Or.inl (by decide)),
    c3_failures_logged_not_retried wAllOk swUpdateFails pA ⟨"IAM-100", 61⟩ srvA
      (by decide) (Or.inr ⟨"post failed", rfl⟩)⟩

/-- C7 counterexample: for a concrete unparsable envelope, the part_000
handler logs and makes zero collaborator calls, but responds with the
500 error, not with the empty acknowledgment — refuting the part of the
claim that says the acknowledgment is still sent. -/
theorem c7_malformed_counterexample :
    part000SlackActions wAllOk (.error "Unexpected token u in JSON") =
      [.logError "Error handling Slack action: Unexpected token u in JSON",
       .respond 500 (.text "Error processing action")] ∧
    responseOf (part000SlackActions wAllOk (.error "Unexpected token u in JSON")) ≠
      some (200, .text "") := by decide

/-- C7 corrected: an unparsable envelope or an unparsable embedded token
stops processing with the failure logged and zero collaborator calls,
but the part_000 handler sends the 500 error response rather than the
empty acknowledgment. -/
theorem c7_malformed_stops (w : ActionWorld) (e : String) (p : SlackPayload)
    (hd : decode p.actionValue = none) :
    ((part000SlackActions w (.error e)).countP isCollabCall = 0 ∧
     (part000SlackActions w (.error e)).countP isLogError = 1 ∧
     responseOf (part000SlackActions w (.error e)) =
       some (500, .text "Error processing action")) ∧
    ((part000SlackActions w (.ok p)).countP isCollabCall = 0 ∧
     (part000SlackActions w (.ok p)).countP isLogError = 1 ∧
     responseOf (part000SlackActions w (.ok p)) =
       some (500, .text "Error processing action")) := by
  constructor
  · exact ⟨by simp [part000SlackActions, List.countP_cons, isCollabCall],
      by simp [part000SlackActions, List.countP_cons, isLogError],
      part000_always_500 w (.error e)⟩
  · refine ⟨?_, ?_, part000_always_500 w (.ok p)⟩ <;>
      simp [part000SlackActions, hd, List.countP_cons, isCollabCall, isLogError]

/-! ## Claim theorems for the middleware and the notification fan-out -/

/-- C8: with the shared secret configured (truthy), every request to
POST /notify-approver whose trimmed Authorization header does not equal
`Bearer <secret>` — in particular a missing header — is rejected with
401 and the route handler is not invoked. -/
theorem c8_unauthorized (secret : String) (authHeader : Option String)
    (hs : secret ≠ "")
    (ha : jsTrim (authHeader.getD "") ≠ "Bearer " ++ secret) :
    securityMiddleware secret "/notify-approver" authHeader = .respond401 := by
  unfold securityMiddleware
  rw [if_neg (by decide : ¬ pathStartsWith "/notify-approver" "/slack-actions" = true)]
  rw [if_neg (fun h => h.elim hs ha)]

/-- C8 witness: concrete rejections for a wrong header and for a missing
header. -/
theorem c8_unauthorized_witness :
    (("s3cret" : String) ≠ "") ∧
    (jsTrim ((some "Bearer wrong" : Option String).getD "") ≠ "Bearer " ++ "s3cret") ∧
    (jsTrim ((none : Option String).getD "") ≠ "Bearer " ++ "s3cret") ∧
    securityMiddleware "s3cret" "/notify-approver" (some "Bearer wrong") = .respond401 ∧
    securityMiddleware "s3cret" "/notify-approver" none = .respond401 :=
  ⟨by decide, by decide, by decide,
    c8_unauthorized "s3cret" (some "Bearer wrong") (by decide) (by decide),
    c8_unauthorized "s3cret" none (by decide) (by decide)⟩

theorem dispatchOne_email (w : NotifyWorld) (e : String) : (dispatchOne w e).1.email = e := by
  cases hl : w.lookupUser e with
  | error m => simp [dispatchOne, hl]
  | ok uid =>
    cases hp : w.postMessage uid with
    | error m => simp [dispatchOne, hl, hp]
    | ok u => simp [dispatchOne, hl, hp]

theorem dispatchLoop_results (w : NotifyWorld) (l : List String) :
    (dispatchLoop w l).1 = l.map (fun e => (dispatchOne w e).1) := by
  induction l with
  | nil => rfl
  | cons e r ih => simp [dispatchLoop, ih]

theorem dispatchLoop_attempted (w : NotifyWorld) (l : List String) :
    ∀ e ∈ l, Event.lookupCall e ∈ (dispatchLoop w l).2 := by
  induction l with
  | nil => intro e h; cases h
  | cons a r ih =>
    intro e h
    simp only [dispatchLoop]
    rcases List.mem_cons.mp h with rfl | h
    · apply List.mem_append_left
      cases hl : w.lookupUser e with
      | error m => simp [dispatchOne, hl]
      | ok uid =>
        cases hp : w.postMessage uid with
        | error m => simp [dispatchOne, hl, hp]
        | ok u => simp [dispatchOne, hl, hp]
    · exact List.mem_append_right _ (ih e h)

theorem dispatchOne_lookup_fail (w : NotifyWorld) (e msg : String)
    (h : w.lookupUser e = .error msg) : (dispatchOne w e).1 = ⟨e, false, some msg⟩ := by
  simp [dispatchOne, h]

theorem dispatchOne_post_fail (w : NotifyWorld) (e uid msg : String)
    (h : w.lookupUser e = .ok uid) (h2 : w.postMessage uid = .error msg) :
    (dispatchOne w e).1 = ⟨e, false, some msg⟩ := by
  simp [dispatchOne, h, h2]

theorem dispatchOne_ok (w : NotifyWorld) (e uid : String)
    (h : w.lookupUser e = .ok uid) (h2 : w.postMessage uid = .ok ()) :
    (dispatchOne w e).1 = ⟨e, true, none⟩ := by
  simp [dispatchOne, h, h2]

/-- C5: for every non-empty recipient list of size N, the dispatch loop
returns exactly N results in input order, one per requested recipient;
a failing recipient (identity lookup or send) is recorded in its own
result with `ok := false` and an error message, while every recipient —
later ones included — is still attempted. -/
theorem c5_dispatch_isolation (w : NotifyWorld) (emails : List String)
    (hne : emails ≠ []) :
    ((dispatchLoop w emails).1.length = emails.length ∧
     (dispatchLoop w emails).1.map SendResult.email = emails) ∧
    (∀ i : Nat, ∀ e : String, emails[i]? = some e →
      ((dispatchLoop w emails).1[i]? = some (dispatchOne w e).1 ∧
       Event.lookupCall e ∈ (dispatchLoop w emails).2)) ∧
    (∀ e msg, w.lookupUser e = .error msg →
      (dispatchOne w e).1 = ⟨e, false, some msg⟩) ∧
    (∀ e uid msg, w.lookupUser e = .ok uid → w.postMessage uid = .error msg →
      (dispatchOne w e).1 = ⟨e, false, some msg⟩) ∧
    (∀ e uid, w.lookupUser e = .ok uid → w.postMessage uid = .ok () →
      (dispatchOne w e).1 = ⟨e, true, none⟩) := by
  refine ⟨⟨?_, ?_⟩, ?_, dispatchOne_lookup_fail w, dispatchOne_post_fail w, dispatchOne_ok w⟩
  · rw [dispatchLoop_results]
    exact List.length_map _ _
  · rw [dispatchLoop_results, List.map_map]
    have hcomp : (SendResult.email ∘ fun e => (dispatchOne w e).1) = id := by
      funext e
      exact dispatchOne_email w e
    rw [hcomp, List.map_id]
  · intro i e hi
    constructor
    · rw [dispatchLoop_results, List.getElem?_map, hi]
      rfl
    · exact dispatchLoop_attempted w emails e (List.getElem?_mem hi)

/-- C5 witness: the claim's own example — recipient A fails (identity not
found), recipient B succeeds — yields in order
`[(A, ok:false, error), (B, ok:true)]`. -/
theorem c5_dispatch_isolation_witness :
    ((dispatchLoop wNotifyAFails ["a@x", "b@x"]).1 =
      [⟨"a@x", false, some "users_not_found"⟩, ⟨"b@x", true, none⟩]) ∧
    (((dispatchLoop wNotifyAFails ["a@x", "b@x"]).1.length = (["a@x", "b@x"] : List String).length ∧
      (dispatchLoop wNotifyAFails ["a@x", "b@x"]).1.map SendResult.email = ["a@x", "b@x"]) ∧
     (∀ i : Nat, ∀ e : String, (["a@x", "b@x"] : List String)[i]? = some e →
       ((dispatchLoop wNotifyAFails ["a@x", "b@x"]).1[i]? = some (dispatchOne wNotifyAFails e).1 ∧
        Event.lookupCall e ∈ (dispatchLoop wNotifyAFails ["a@x", "b@x"]).2)) ∧
     (∀ e msg, wNotifyAFails.lookupUser e = .error msg →
       (dispatchOne wNotifyAFails e).1 = ⟨e, false, some msg⟩) ∧
     (∀ e uid msg, wNotifyAFails.lookupUser e = .ok uid →
        wNotifyAFails.postMessage uid = .error msg →
       (dispatchOne wNotifyAFails e).1 = ⟨e, false, some msg⟩) ∧
     (∀ e uid, wNotifyAFails.lookupUser e = .ok uid → wNotifyAFails.postMessage uid = .ok () →
       (dispatchOne wNotifyAFails e).1 = ⟨e, true, none⟩)) :=
  ⟨by decide, c5_dispatch_isolation wNotifyAFails ["a@x", "b@x"] (by decide)⟩

/-- C6 counterexample: the recipient list `[""]` consists only of falsy
values, yet it is not rejected — the handler proceeds and makes external
collaborator calls (the issue fetch and a lookup of the empty email),
because `filter(Boolean)` is applied only in the non-array branch of the
normalization. -/
theorem c6_falsy_array_counterexample :
    normalizeEmails (.arr [""]) ≠ [] ∧
    (notifyApprover wNotifyOk ⟨.arr [""], "IAM-100"⟩).countP isCollabCall ≠ 0 ∧
    responseOf (notifyApprover wNotifyOk ⟨.arr [""], "IAM-100"⟩) ≠
      some (400, .jsonError "no approverEmails provided") := by decide

/-- C6 corrected: a request whose recipient input normalizes to the empty
list — absent/falsy input, an empty array, or a falsy scalar — fails
with the 400 ValidationError and zero external collaborator calls; but
an array consisting only of falsy values does not normalize to empty
and is not rejected, since the truthiness filter applies only to the
scalar branch. -/
theorem c6_empty_rejected (w : NotifyWorld) (req : NotifyReq)
    (h : normalizeEmails req.approverEmails = []) :
    (notifyApprover w req = [.respond 400 (.jsonError "no approverEmails provided")] ∧
     (notifyApprover w req).countP isCollabCall = 0) ∧
    (∀ inp : EmailsInput, normalizeEmails inp = [] ↔
      inp = .absent ∨ inp = .str "" ∨ inp = .arr []) := by
  have htrace : notifyApprover w req = [.respond 400 (.jsonError "no approverEmails provided")] := by
    unfold notifyApprover
    rw [h]
    rfl
  refine ⟨⟨htrace, by rw [htrace]; rfl⟩, ?_⟩
  intro inp
  cases inp with
  | absent => simp [normalizeEmails]
  | str s => by_cases hs : s = "" <;> simp [normalizeEmails, hs]
  | arr xs => simp [normalizeEmails]

/-- C6 witness: the corrected behaviour at a concrete absent recipient
input. -/
theorem c6_empty_rejected_witness :
    (normalizeEmails (EmailsInput.absent) = []) ∧
    ((notifyApprover wNotifyOk ⟨.absent, "IAM-100"⟩ =
        [.respond 400 (.jsonError "no approverEmails provided")] ∧
      (notifyApprover wNotifyOk ⟨.absent, "IAM-100"⟩).countP isCollabCall = 0) ∧
     (∀ inp : EmailsInput, normalizeEmails inp = [] ↔
       inp = .absent ∨ inp = .str "" ∨ inp = .arr [])) :=
  ⟨rfl, c6_empty_rejected wNotifyOk ⟨.absent, "IAM-100"⟩ rfl⟩

theorem totalPause_append (a b : List Event) :
    totalPause (a ++ b) = totalPause a + totalPause b := by
  induction a with
  | nil => simp [totalPause]
  | cons e r ih => cases e <;> simp [totalPause, ih] <;> omega

theorem dispatchOne_pause (w : NotifyWorld) (e : String) :
    pauseCount (dispatchOne w e).2 = 1 ∧ totalPause (dispatchOne w e).2 = w.rateLimitMs := by
  cases hl : w.lookupUser e with
  | error m =>
    simp [dispatchOne, hl, pauseCount, totalPause, isPauseEvent, List.countP_cons]
  | ok uid =>
    cases hp : w.postMessage uid with
    | error m =>
      simp [dispatchOne, hl, hp, pauseCount, totalPause, isPauseEvent, List.countP_cons]
    | ok u =>
      simp [dispatchOne, hl, hp, pauseCount, totalPause, isPauseEvent, List.countP_cons]

/-- C9: the dispatch loop pauses the fixed `RATE_LIMIT_MS` interval after
every recipient attempt (success or failure alike), so dispatching N
recipients mandates exactly N pauses — in particular at least N−1 —
and the total mandated pause time is N·RATE_LIMIT_MS ≥ (N−1)·RATE_LIMIT_MS,
a lower bound on the wall-clock duration. -/
theorem c9_pacing (w : NotifyWorld) (emails : List String) :
    pauseCount (dispatchLoop w emails).2 = emails.length ∧
    totalPause (dispatchLoop w emails).2 = emails.length * w.rateLimitMs ∧
    (emails.length - 1) * w.rateLimitMs ≤ totalPause (dispatchLoop w emails).2 := by
  have key : ∀ l : List String, pauseCount (dispatchLoop w l).2 = l.length ∧
      totalPause (dispatchLoop w l).2 = l.length * w.rateLimitMs := by
    intro l
    induction l with
    | nil => exact ⟨rfl, by simp [dispatchLoop, totalPause]⟩
    | cons e r ih =>
      have h1 := dispatchOne_pause w e
      constructor
      · show pauseCount ((dispatchOne w e).2 ++ (dispatchLoop w r).2) = _
        simp only [pauseCount] at h1 ih ⊢
        rw [List.countP_append, h1.1, ih.1]
        simp [Nat.add_comm]
      · show totalPause ((dispatchOne w e).2 ++ (dispatchLoop w r).2) = _
        rw [totalPause_append, h1.2, ih.2]
        simp [List.length_cons]
        ring
  refine ⟨(key emails).1, (key emails).2, ?_⟩
  rw [(key emails).2]
  exact Nat.mul_le_mul_right _ (by omega)

/-- C7 witness: the corrected behaviour at a concrete corrupted token. -/
theorem c7_malformed_stops_witness :
    (decode pBad.actionValue = none) ∧
    (((part000SlackActions wAllOk (.error "bad json")).countP isCollabCall = 0 ∧
      (part000SlackActions wAllOk (.error "bad json")).countP isLogError = 1 ∧
      responseOf (part000SlackActions wAllOk (.error "bad json")) =
        some (500, .text "Error processing action")) ∧
     ((part000SlackActions wAllOk (.ok pBad)).countP isCollabCall = 0 ∧
      (part000SlackActions wAllOk (.ok pBad)).countP isLogError = 1 ∧
      responseOf (part000SlackActions wAllOk (.ok pBad)) =
        some (500, .text "Error processing action"))) :=
  ⟨by decide, c7_malformed_stops wAllOk "bad json" pBad (by decide)⟩

end IamApprover
